import Mathlib

/-!
Shallow embedding of `clockodo/__main__.py` (a CLI client for the clockodo
time-tracking service) and proofs about its entry aggregation, pairing,
name resolution, option handling and error branches.

Conventions of the embedding:
* timestamps and timedeltas are integers counting seconds (in the local
  timezone, matching `our_tz()` in the source);
* Python runtime failures (AttributeError, NameError, ValueError) are made
  explicit through `Except PyError`;
* `None` becomes `Option.none`.
-/

namespace Clockodo

/-- Python runtime errors that the embedded fragments can raise. -/
inductive PyError
  | attributeError (obj : String) (attr : String)
  | nameError (var : String)
  | valueError (msg : String)
  deriving Repr, DecidableEq

/-- A dynamically typed Python value, used where the source passes a value
whose type the embedding must track (e.g. an argument to an API call). -/
inductive PyVal
  | int (n : Int)
  | str (s : String)
  | noneV
  deriving Repr, DecidableEq

/-- The record `clockodo.entry.ClockEntry` as the `entries` loop and
`continue_last_clock` consume it: start time, optional end time, optional
precomputed duration in seconds, and the free-text description. -/
structure ClockEntry where
  time_since : Int
  time_until : Option Int
  duration : Option Int
  text : String
  deriving Repr, DecidableEq

/-- Raw data carried by a non-clock entry; only the integer type
discriminant matters to the embedding. -/
structure RawData where
  type_disc : Int
  deriving Repr, DecidableEq

/-- Modelled from the spec: the `clockodo.entry` module (not under `src/`)
classifies every raw entry as either a `ClockEntry` or an `OtherEntry`;
an `OtherEntry` is "opaque, carries raw data for display only". -/
inductive Entry
  | clock (e : ClockEntry)
  | other (raw : RawData)
  deriving Repr, DecidableEq

/-- Reading `.duration`. Modelled from the spec: `OtherEntry` is opaque raw
data for display only, so it exposes no `duration` attribute; reading an
attribute of `None` is an AttributeError as well. -/
def attr_duration : Option Entry → Except PyError (Option Int)
  | some (.clock e) => .ok e.duration
  | some (.other _) => .error (.attributeError "OtherEntry" "duration")
  | none => .error (.attributeError "NoneType" "duration")

/-- Reading `.time_since`; same attribute model as `attr_duration`. -/
def attr_time_since : Option Entry → Except PyError Int
  | some (.clock e) => .ok e.time_since
  | some (.other _) => .error (.attributeError "OtherEntry" "time_since")
  | none => .error (.attributeError "NoneType" "time_since")

/-- Reading `.time_until`; same attribute model as `attr_duration`. -/
def attr_time_until : Option Entry → Except PyError (Option Int)
  | some (.clock e) => .ok e.time_until
  | some (.other _) => .error (.attributeError "OtherEntry" "time_until")
  | none => .error (.attributeError "NoneType" "time_until")

/-- Rendering: `click.echo(clock_entry_cb(entry))` at the top of the loop body.
`clock_entry_cb` reads display fields of the entry. Modelled from the spec:
an `OtherEntry` is "still rendered for display", so rendering it succeeds;
rendering `None` would read `.customer` of `None` and raise. -/
def render_entry : Option Entry → Except PyError Unit
  | some _ => .ok ()
  | none => .error (.attributeError "NoneType" "customer")

/-- The helper `itertools.zip_longest` with `fillvalue=None`, restricted to two
sequences as used by `pairwise_with_last_none`. -/
def zip_longest : List α → List β → List (Option α × Option β)
  | [], ys => ys.map (fun y => (none, some y))
  | x :: xs, [] => (some x, none) :: zip_longest xs []
  | x :: xs, y :: ys => (some x, some y) :: zip_longest xs ys

/-- The generator `pairwise_with_last_none` (source lines 328-335): tee the iterable,
advance the peek copy by one element (`next(peek, None)`), then
`zip_longest(main, peek, fillvalue=None)`. On a list, the advanced copy is
`xs.drop 1`. -/
def pairwise_with_last_none (xs : List α) : List (Option α × Option α) :=
  zip_longest xs (xs.drop 1)

/-- Accumulator state of the `entries` command loop: the three counters
initialised before the loop, plus the break lines echoed
(`"Break: …"`, recorded by duration) and the number of entries rendered. -/
structure EntriesTotals where
  break_count : Int
  total_break_duration : Int
  total_work_time : Int
  break_lines : List Int
  rendered : Nat
  deriving Repr, DecidableEq

/-- Initial accumulator: `break_count = 0`,
`total_break_duration = timedelta(0)`, `total_work_time = timedelta(0)`. -/
def EntriesTotals.init : EntriesTotals := ⟨0, 0, 0, [], 0⟩

/-- The `for entry, next_entry in entries:` loop of the `entries` command
(source lines 341-354), over the pairs produced by
`pairwise_with_last_none`:
render the entry; add `entry.duration` seconds to `total_work_time` if not
`None`, else add `now - entry.time_since`; then, if `entry.time_until` is
not `None` and `next_entry` is not `None`, add
`next_entry.time_since - entry.time_until` to `total_break_duration`
unconditionally and, only when that difference is strictly positive, echo a
break line and increment `break_count`. -/
def entries_loop (now : Int) :
    List (Option Entry × Option Entry) → EntriesTotals → Except PyError EntriesTotals
  | [], acc => .ok acc
  | (entry, next_entry) :: rest, acc => do
      let _ ← render_entry entry
      let acc := { acc with rendered := acc.rendered + 1 }
      let d ← attr_duration entry
      let acc ← match d with
        | some dur => pure { acc with total_work_time := acc.total_work_time + dur }
        | none => do
            let ts ← attr_time_since entry
            pure { acc with total_work_time := acc.total_work_time + (now - ts) }
      let tu ← attr_time_until entry
      let acc ← match tu, next_entry with
        | some t_until, some nxt => do
            let next_since ← attr_time_since (some nxt)
            let break_duration := next_since - t_until
            let acc :=
              { acc with total_break_duration := acc.total_break_duration + break_duration }
            if 0 < break_duration then
              pure { acc with break_lines := acc.break_lines ++ [break_duration],
                              break_count := acc.break_count + 1 }
            else
              pure acc
        | _, _ => pure acc
      entries_loop now rest acc
termination_by structural l => l

/-- The aggregation portion of the `entries` command (source
lines 337-354): fold the loop over the paired entry sequence starting from
the zero totals. -/
def entries_aggregate (now : Int) (es : List Entry) : Except PyError EntriesTotals :=
  entries_loop now (pairwise_with_last_none es) .init

/-- Inject a list of clock entries into the entry sequence. -/
def clockList (l : List ClockEntry) : List Entry := l.map .clock

/-- A reference object (customer, project or service) as the name scans
read it: a stable integer id and a name. -/
structure RefObject where
  id : Int
  name : String
  deriving Repr, DecidableEq

/-- The name-resolution scan of `new_clock` (source lines 164-168, and the
identical project/service/edit scans): iterate the candidates in order, on
the first one whose `.name` equals the query assign it and `break`. Also
returns how many candidates the loop examined before stopping. -/
def resolve_scan (query : String) : List RefObject → Option RefObject × Nat
  | [] => (none, 0)
  | c :: rest =>
      if c.name = query then (some c, 1)
      else
        let r := resolve_scan query rest
        (r.1, r.2 + 1)

/-- What `new_clock` decides to do for one of its three reference fields. -/
inductive FieldAction
  | getById (fn : String) (arg : PyVal)
  | resolveByName (kind : String) (name : String)
  | leaveNone
  | echoExit (msg : String) (code : Int)
  deriving Repr, DecidableEq

/-- The Python value held by an `Optional[str]` variable. -/
def pyOfStrOpt : Option String → PyVal
  | some s => .str s
  | none => .noneV

/-- Customer resolution in `new_clock` (source lines 161-174):
`if customer_id is not None: customer = api.get_customer(customer_id)`,
elif the name is given scan `api.iter_customers()` for it, else echo
"One of --customer or --customer-id must be specified!" and `exit(1)`. -/
def new_clock_customer_action (customer_id : Option Int) (customer : Option String) :
    FieldAction :=
  match customer_id with
  | some cid => .getById "get_customer" (.int cid)
  | none =>
    match customer with
    | some cname => .resolveByName "customer" cname
    | none => .echoExit "One of --customer or --customer-id must be specified!" 1

/-- Project resolution in `new_clock` (source lines 176-188):
`if project_id is not None: project = api.get_project(project)` — note the
source passes the variable `project` (the name option, an `Optional[str]`),
not `project_id`, to `api.get_project` — elif the name is given scan
`api.iter_projects()` for it, else `project = None`. -/
def new_clock_project_action (project_id : Option Int) (project : Option String) :
    FieldAction :=
  match project_id with
  | some _ => .getById "get_project" (pyOfStrOpt project)
  | none =>
    match project with
    | some pname => .resolveByName "project" pname
    | none => .leaveNone

/-- Service resolution in `new_clock` (source lines 190-203): mirror of the
customer case with `api.get_service(service_id)` and the message
"One of --service or --service-id must be specified!". -/
def new_clock_service_action (service_id : Option Int) (service : Option String) :
    FieldAction :=
  match service_id with
  | some sid => .getById "get_service" (.int sid)
  | none =>
    match service with
    | some sname => .resolveByName "service" sname
    | none => .echoExit "One of --service or --service-id must be specified!" 1

/-- An output stream of the process. -/
inductive OutStream
  | stdout
  | stderr
  deriving Repr, DecidableEq

/-- `click.echo(message, file=None, nl=True, err=False)`: writes the
message to `file`, defaulting to stderr when `err` is set else stdout. A
value that is not a writable file object (for instance a `str` passed
positionally in the `file` slot) has no `write` method, so echoing to it
raises AttributeError. -/
def click_echo (message : String) (file : Option PyVal) (err : Bool) :
    Except PyError (OutStream × String) :=
  match file with
  | none => .ok (if err then .stderr else .stdout, message)
  | some (.str _) => .error (.attributeError "str" "write")
  | some (.int _) => .error (.attributeError "int" "write")
  | some .noneV => .ok (if err then .stderr else .stdout, message)

/-- The local names bound in the body of `edit_clock` (source
lines 229-273): the parameters `api` and `kwargs`, the local `clock`, the
progressbar alias `bar` and the loop variable `c`. The option values live
only in `kwargs`; no local named `customer`, `project` or `service`
exists. -/
def edit_clock_scope : List String := ["api", "kwargs", "clock", "bar", "c"]

/-- Evaluating a name interpolated by an f-string: looking up an identifier
that is not in scope raises NameError. -/
def fstring_lookup (scope : List String) (var : String) : Except PyError String :=
  if var ∈ scope then .ok var else .error (.nameError var)

/-- The customer not-found branch of `new_clock` (source lines 170-171):
echo the f-string naming the customer with `err=True`, then `exit(1)`. -/
def new_clock_customer_not_found (customer : String) :
    Except PyError ((OutStream × String) × Int) := do
  let out ← click_echo ("Can\x27t find a customer named " ++ customer) none true
  pure (out, 1)

/-- The project not-found branch of `new_clock` (source lines 185-186):
`click.echo("Can\x27t find a project named", project, err=True)` — the project
name is passed positionally in the `file` slot, not inside the message —
then `exit(1)`. -/
def new_clock_project_not_found (project : String) :
    Except PyError ((OutStream × String) × Int) := do
  let out ← click_echo "Can\x27t find a project named" (some (.str project)) true
  pure (out, 1)

/-- The service not-found branch of `new_clock` (source lines 199-200):
echo the f-string naming the service with `err=True`, then `exit(1)`. -/
def new_clock_service_not_found (service : String) :
    Except PyError ((OutStream × String) × Int) := do
  let out ← click_echo ("Can\x27t find a service named " ++ service) none true
  pure (out, 1)

/-- The customer not-found branch of `edit_clock` (source lines 242-243):
the f-string interpolates the bare identifier `customer`, which is not
bound in `edit_clock`; only then would the message be echoed and `exit(1)`
run. -/
def edit_clock_customer_not_found : Except PyError ((OutStream × String) × Int) := do
  let c ← fstring_lookup edit_clock_scope "customer"
  let out ← click_echo ("Can\x27t find a customer named " ++ c) none true
  pure (out, 1)

/-- Outcome of the `clock continue` command. -/
inductive ContinueOutcome
  | already_clocked_in_exit (code : Int)
  | unpack_value_error
  | not_clock_entry_exit (code : Int)
  | started (last : ClockEntry)
  deriving Repr, DecidableEq

/-- The command `continue_last_clock` (source lines 125-148): if a clock is already
running, echo the already-clocked-in message and `exit(1)`; fetch the daily
entries and destructure `*_, last = …`, which raises ValueError when the
sequence is empty; if the last entry is not a `ClockEntry`, echo
"Last entry is not a clock entry!" and `exit(1)`; otherwise start a copy of
it. -/
def continue_last_clock (current : Option ClockEntry) (todays_entries : List Entry) :
    ContinueOutcome :=
  match current with
  | some _ => .already_clocked_in_exit 1
  | none =>
    match todays_entries.getLast? with
    | none => .unpack_value_error
    | some (.clock e) => .started e
    | some (.other _) => .not_clock_entry_exit 1

/-- Local midnight, `datetime.datetime.combine(day, datetime.time(0, tzinfo=our_tz()))`:
midnight of a local calendar day, as seconds in the local timezone, where a
day is numbered by its count since the local epoch day. -/
def combine_midnight (day : Int) : Int := day * 86400

/-- The window defaulting of the `entries` command (source lines 317-326):
an omitted `time_since` becomes midnight of `date.today()`, an omitted
`time_until` becomes midnight of `date.today() + timedelta(days=1)`. -/
def entries_window (today : Int) (time_since time_until : Option Int) : Int × Int :=
  (match time_since with
   | some t => t
   | none => combine_midnight today,
   match time_until with
   | some t => t
   | none => combine_midnight (today + 1))

/-! ## Helper lemmas -/

deriving instance DecidableEq for Except

/-- Closed form of `pairwise_with_last_none` on lists: each element paired
with its successor, the last with `none`. -/
theorem pairwise_eq_zip : ∀ (xs : List α),
    pairwise_with_last_none xs = (xs.map some).zip ((xs.drop 1).map some ++ [none])
  | [] => by simp [pairwise_with_last_none, zip_longest]
  | [_] => by simp [pairwise_with_last_none, zip_longest]
  | x :: y :: rest => by
      have ih := pairwise_eq_zip (y :: rest)
      simp only [pairwise_with_last_none, List.drop_succ_cons, List.drop_zero] at ih ⊢
      simp only [zip_longest, List.map_cons, List.cons_append, List.zip_cons_cons]
      simp only [zip_longest, List.map_cons] at ih
      exact congrArg _ ih

/-- The work-time increment of one loop iteration: the stored duration when
present, else `now - time_since`. -/
def work_delta (now : Int) (e : ClockEntry) : Int :=
  match e.duration with
  | some d => d
  | none => now - e.time_since

/-- The effect of one iteration of the `entries` loop body on the
accumulator, for a clock entry followed by an optional clock entry (proved
equal to the behaviour of `entries_loop` in `entries_loop_cons_clock`). -/
def step_clock (now : Int) (e : ClockEntry) (onxt : Option ClockEntry)
    (acc : EntriesTotals) : EntriesTotals :=
  let acc1 := { acc with rendered := acc.rendered + 1,
                         total_work_time := acc.total_work_time + work_delta now e }
  match e.time_until, onxt with
  | some tu, some nxt =>
      let bd := nxt.time_since - tu
      let acc2 := { acc1 with total_break_duration := acc1.total_break_duration + bd }
      if 0 < bd then
        { acc2 with break_lines := acc2.break_lines ++ [bd],
                    break_count := acc2.break_count + 1 }
      else acc2
  | _, _ => acc1

/-- One iteration of `entries_loop` on a clock entry whose lookahead is a
clock entry or the sentinel runs without error and transforms the
accumulator by `step_clock`. -/
theorem entries_loop_cons_clock (now : Int) (e : ClockEntry) (onxt : Option ClockEntry)
    (rest : List (Option Entry × Option Entry)) (acc : EntriesTotals) :
    entries_loop now ((some (.clock e), Option.map Entry.clock onxt) :: rest) acc
      = entries_loop now rest (step_clock now e onxt acc) := by
  cases hd : e.duration <;> cases ht : e.time_until <;> cases onxt <;>
    simp [entries_loop, step_clock, work_delta, render_entry, attr_duration,
      attr_time_since, attr_time_until, hd, ht, bind, Except.bind, pure, Except.pure,
      Option.map] <;>
    split <;> rfl

/-! ## Claim theorems -/

/-- Claim C3: `pairwise_with_last_none` pairs each element with its successor and
the last element with the `None` sentinel: the empty sequence yields no
pairs, `[e1]` yields `[(e1, None)]`, `[e1, e2, e3]` yields
`[(e1,e2), (e2,e3), (e3, None)]`, and in general the output zips the
elements with the successor sequence extended by the sentinel. -/
theorem pairwise_with_last_none_spec (α : Type) (xs : List α) (e1 e2 e3 : α) :
    pairwise_with_last_none ([] : List α) = []
  ∧ pairwise_with_last_none [e1] = [(some e1, none)]
  ∧ pairwise_with_last_none [e1, e2, e3] =
      [(some e1, some e2), (some e2, some e3), (some e3, none)]
  ∧ pairwise_with_last_none xs = (xs.map some).zip ((xs.drop 1).map some ++ [none]) :=
  ⟨by simp [pairwise_with_last_none, zip_longest],
   by simp [pairwise_with_last_none, zip_longest],
   by simp [pairwise_with_last_none, zip_longest],
   pairwise_eq_zip xs⟩

/-- Claim C1: in the entries loop, a break is computed only when the entry has a
`time_until` and the lookahead is not the sentinel; the difference
`next_entry.time_since - entry.time_until` is added to
`total_break_duration` unconditionally and without raising, including zero
and negative values; `break_count` is incremented and a break line echoed
only when the difference is strictly positive; and the overlapping pair
`[{since 09:00, until 09:30}, {since 09:20, until None}]` yields
`break_count = 0` and `total_break_duration = -10` minutes (-600 s). -/
theorem entries_break_accounting (now tu ts ts0 : Int) (dur dur0 : Option Int)
    (txt txt0 : String) (nxt : ClockEntry) (acc : EntriesTotals)
    (rest : List (Option Entry × Option Entry)) :
    (∃ a : EntriesTotals,
        entries_loop now
            ((some (.clock ⟨ts, some tu, dur, txt⟩), some (.clock nxt)) :: rest) acc
          = entries_loop now rest a
      ∧ a.total_break_duration = acc.total_break_duration + (nxt.time_since - tu)
      ∧ (0 < nxt.time_since - tu →
          a.break_count = acc.break_count + 1
          ∧ a.break_lines = acc.break_lines ++ [nxt.time_since - tu])
      ∧ (nxt.time_since - tu ≤ 0 →
          a.break_count = acc.break_count ∧ a.break_lines = acc.break_lines))
  ∧ (∃ a : EntriesTotals,
        entries_loop now ((some (.clock ⟨ts, some tu, dur, txt⟩), none) :: rest) acc
          = entries_loop now rest a
      ∧ a.total_break_duration = acc.total_break_duration
      ∧ a.break_count = acc.break_count ∧ a.break_lines = acc.break_lines)
  ∧ (∃ a : EntriesTotals,
        entries_loop now
            ((some (.clock ⟨ts0, none, dur0, txt0⟩), some (.clock nxt)) :: rest) acc
          = entries_loop now rest a
      ∧ a.total_break_duration = acc.total_break_duration
      ∧ a.break_count = acc.break_count ∧ a.break_lines = acc.break_lines)
  ∧ (entries_aggregate 34200 (clockList
        [⟨32400, some 34200, none, "a"⟩, ⟨33600, none, none, "b"⟩])).map
        (fun t => (t.break_count, t.total_break_duration)) = .ok (0, -600) := by
  refine ⟨?_, ?_, ?_, by decide⟩
  · have h := entries_loop_cons_clock now ⟨ts, some tu, dur, txt⟩ (some nxt) rest acc
    simp only [Option.map_some'] at h
    refine ⟨_, h, ?_, ?_, ?_⟩
    · by_cases hb : 0 < nxt.time_since - tu <;> simp [step_clock, work_delta, hb]
    · intro hb; simp [step_clock, work_delta, hb]
    · intro hb
      have hb2 : ¬ tu < nxt.time_since := by omega
      simp [step_clock, work_delta, hb2]
  · have h := entries_loop_cons_clock now ⟨ts, some tu, dur, txt⟩ none rest acc
    simp only [Option.map_none'] at h
    exact ⟨_, h, by simp [step_clock, work_delta], by simp [step_clock, work_delta],
      by simp [step_clock, work_delta]⟩
  · have h := entries_loop_cons_clock now ⟨ts0, none, dur0, txt0⟩ (some nxt) rest acc
    simp only [Option.map_some'] at h
    exact ⟨_, h, by simp [step_clock, work_delta], by simp [step_clock, work_delta],
      by simp [step_clock, work_delta]⟩

/-- Claim C2: every entry consumed by the entries loop adds its stored duration
when present, else `now - time_since`, to `total_work_time`; and the
scenario `[{since 09:00, until 09:30, duration 1800}, {since 10:00,
until None}]` evaluated at `now = 10:15` yields
`total_work_time = 2700` seconds. -/
theorem entries_work_time_accounting (now : Int) (acc : EntriesTotals) (e : ClockEntry)
    (onxt : Option ClockEntry) (rest : List (Option Entry × Option Entry)) :
    (∃ a : EntriesTotals,
        entries_loop now ((some (.clock e), Option.map Entry.clock onxt) :: rest) acc
          = entries_loop now rest a
      ∧ a.total_work_time = acc.total_work_time +
          (match e.duration with
           | some d => d
           | none => now - e.time_since))
  ∧ (entries_aggregate 36900 (clockList
        [⟨32400, some 34200, some 1800, "a"⟩, ⟨36000, none, none, "b"⟩])).map
        (fun t => t.total_work_time) = .ok 2700 := by
  refine ⟨⟨step_clock now e onxt acc, entries_loop_cons_clock now e onxt rest acc, ?_⟩,
    by decide⟩
  cases ht : e.time_until <;> cases onxt <;>
    simp [step_clock, work_delta, ht]
  all_goals split <;> rfl

/-- Claim C4: the claim fails on the code: the entries loop reads the `duration`
attribute of every entry with no variant check, so a window containing an
`OtherEntry` (opaque, display-only raw data) raises AttributeError instead
of excluding it from the totals, and the break lookahead likewise reads
`time_since` of an `OtherEntry` successor; an all-`ClockEntry` window runs
without error. -/
theorem entries_other_entry_raises :
    entries_aggregate 0 [Entry.other ⟨2⟩]
      = .error (.attributeError "OtherEntry" "duration")
  ∧ entries_aggregate 36900
        [Entry.clock ⟨32400, some 34200, some 1800, "a"⟩, Entry.other ⟨2⟩]
      = .error (.attributeError "OtherEntry" "time_since")
  ∧ entries_aggregate 36900 (clockList [⟨32400, some 34200, some 1800, "a"⟩])
      = .ok ⟨0, 0, 1800, [], 1⟩ := ⟨by decide, by decide, by decide⟩

/-- Claim C5: id precedence in `new_clock`: for the customer and service fields
the id branch calls the id lookup with the id and the name scan is not
invoked; but for the project field the source passes the `project` name
option, not `project_id`, to `api.get_project`, so with
`--project-id 5 --project Foo` the lookup argument is the string "Foo",
never the id 5 (the claim fails on the project field). -/
theorem new_clock_id_precedence :
    new_clock_customer_action (some 7) (some "Acme") = .getById "get_customer" (.int 7)
  ∧ new_clock_service_action (some 3) (some "Dev") = .getById "get_service" (.int 3)
  ∧ new_clock_project_action (some 5) (some "Foo") = .getById "get_project" (.str "Foo")
  ∧ new_clock_project_action (some 5) (some "Foo") ≠ .getById "get_project" (.int 5)
  ∧ new_clock_project_action (some 5) none = .getById "get_project" .noneV :=
  ⟨rfl, rfl, rfl, by decide, rfl⟩

/-- Claim C6: the claim fails on the code: the customer and service not-found
branches of `new_clock` echo a message naming the kind and the queried name
to stderr and exit 1, but the `new_clock` project branch passes the queried
name positionally as the `file` argument of `click.echo` and raises
AttributeError, and the `edit_clock` customer branch interpolates the
unbound identifier `customer` and raises NameError. -/
theorem not_found_branches :
    new_clock_customer_not_found "Acme"
      = .ok ((.stderr, "Can\x27t find a customer named Acme"), 1)
  ∧ new_clock_service_not_found "Dev"
      = .ok ((.stderr, "Can\x27t find a service named Dev"), 1)
  ∧ new_clock_project_not_found "Foo" = .error (.attributeError "str" "write")
  ∧ edit_clock_customer_not_found = .error (.nameError "customer") :=
  ⟨rfl, rfl, rfl, by decide⟩

/-- Claim C7: the name scan returns the first candidate in sequence order whose
name equals the query by exact, case-sensitive string comparison, and it
examines exactly the candidates up to and including that first match
(short-circuit); on candidates `[A(name "x"), B(name "y"), C(name "x")]`
the query "x" returns `A` after examining one candidate, and a query
differing only in case does not match. -/
theorem resolve_scan_first_match (query : String) (cs : List RefObject) :
    (resolve_scan query cs).1 = cs.find? (fun c => c.name == query)
  ∧ (resolve_scan query cs).2 = min (cs.findIdx (fun c => c.name == query) + 1) cs.length
  ∧ resolve_scan "x" [⟨1, "x"⟩, ⟨2, "y"⟩, ⟨3, "x"⟩] = (some ⟨1, "x"⟩, 1)
  ∧ resolve_scan "x" [⟨1, "X"⟩] = (none, 1) := by
  refine ⟨?_, ?_, by decide, by decide⟩
  · induction cs with
    | nil => rfl
    | cons c rest ih =>
      by_cases hc : c.name = query
      · have hb : (c.name == query) = true := by simp [hc]
        simp [resolve_scan, hc, List.find?_cons_of_pos _ hb]
      · have hb : ¬ (c.name == query) = true := by simp [hc]
        simp [resolve_scan, hc, List.find?_cons_of_neg _ hb, ih]
  · induction cs with
    | nil => rfl
    | cons c rest ih =>
      by_cases hc : c.name = query
      · have hb : (c.name == query) = true := by simp [hc]
        simp [resolve_scan, hc, List.findIdx_cons, hb]
      · have hb : (c.name == query) = false := by simp [hc]
        simp [resolve_scan, hc, List.findIdx_cons, hb, ih, Nat.succ_min_succ]

/-- Claim C8: `clock continue` exits non-zero when a clock is already running or
when the last entry of the daily window is not a `ClockEntry`; with an empty
window the starred unpacking `*_, last = …` raises ValueError (an unhandled
exception) instead of producing a diagnostic. -/
theorem continue_last_clock_spec (c : ClockEntry) (es pre : List Entry) (r : RawData) :
    continue_last_clock (some c) es = .already_clocked_in_exit 1
  ∧ continue_last_clock none [] = .unpack_value_error
  ∧ continue_last_clock none (pre ++ [.other r]) = .not_clock_entry_exit 1 := by
  refine ⟨rfl, rfl, ?_⟩
  simp [continue_last_clock]

/-- Claim C9: `new_clock` with neither a name nor an id for the customer field,
or neither for the service field, prints the corresponding message and
exits with status 1, while omitting both project options leaves the project
as `None`. -/
theorem new_clock_missing_options :
    new_clock_customer_action none none
      = .echoExit "One of --customer or --customer-id must be specified!" 1
  ∧ new_clock_service_action none none
      = .echoExit "One of --service or --service-id must be specified!" 1
  ∧ new_clock_project_action none none = .leaveNone := ⟨rfl, rfl, rfl⟩

/-- Claim C10: an omitted `entries` bound defaults to the local midnight of
the current day
(`time_since`) or the following local midnight (`time_until`); given bounds
are kept; and the default window contains exactly the timestamps whose
local calendar day is today. -/
theorem entries_window_defaults (today t gs gu : Int) :
    entries_window today none none = (combine_midnight today, combine_midnight (today + 1))
  ∧ (entries_window today none (some gu)).1 = combine_midnight today
  ∧ (entries_window today (some gs) none).2 = combine_midnight (today + 1)
  ∧ entries_window today (some gs) (some gu) = (gs, gu)
  ∧ (((entries_window today none none).1 ≤ t ∧ t < (entries_window today none none).2)
      ↔ t / 86400 = today) := by
  refine ⟨rfl, rfl, rfl, rfl, ?_⟩
  simp only [entries_window, combine_midnight]
  omega

end Clockodo
